import Mathlib

/-!
Verification of the gamification/streak engine of the ahorify repository
(`core/services/gamification_service.py` plus its data-access touch points in
`core/database.py`), as a shallow embedding.

Modelling conventions:
* Calendar dates are integers (day numbers); `today - last` models
  `(today - last_active).days`.
* The stored `last_activity_date` column is `DateField`: `null` for a
  NULL/empty value, `unparseable` for a non-empty string that
  `datetime.strptime(date_str, "%Y-%m-%d")` rejects, `valid d` for a string
  parsing to day `d`.
* The SQLite store is `DB`: the (at most one) `user_stats` row for the user,
  the `daily_engagement` ledger (as a row count), and the
  `streak_milestones` records (as the list of recorded milestone day counts).
* Store calls that can raise (`sqlite3` errors) are modelled in `Except Unit`
  driven by a fault profile `Faults`, one flag per store operation, so that a
  `try/except` in the Python source becomes a `match` on the `Except` value.
  `noFaults` is the fault-free run.
* Python `dict` metadata is `Option (List (String × Bool))`: `none` for the
  `None` default, and the truthiness test `if metadata:` is the emptiness
  test on the list.
* Python ints holding points/streaks are `Nat` (the code only ever adds or
  stores non-negative constants); `max(0, x - 10)` is `Nat` subtraction.
* The float `progress_percentage` is modelled in `ℚ`; `round(x, 1)` is
  `round1`.
-/

namespace Ahorify

/-- The stored `last_activity_date` value. -/
inductive DateField
  | null
  | unparseable
  | valid (d : Int)
  deriving DecidableEq, Repr

/-- One `user_stats` row (the columns the gamification service touches). -/
structure UserStats where
  current_streak : Nat
  longest_streak : Nat
  total_points : Nat
  total_streak_days : Nat
  last_activity_date : DateField
  deriving DecidableEq, Repr

/-- The persistent store: the user's stats row (if present), the
`daily_engagement` ledger row count, and the recorded `streak_milestones`. -/
structure DB where
  stats : Option UserStats
  ledger : Nat
  milestones : List Nat
  deriving DecidableEq, Repr

/-- Fault profile for the store calls: which operation raises during a call. -/
structure Faults where
  failRecordDaily : Bool
  failGetStats : Bool
  failUpdateStats : Bool
  failAddMilestone : Bool
  deriving DecidableEq, Repr

/-- The fault-free run. -/
def noFaults : Faults := ⟨false, false, false, false⟩

/-- `POINTS_CONFIG` from `GamificationService`. -/
def POINTS_CONFIG : List (String × Nat) :=
  [("transaction_added", 10), ("dashboard_viewed", 5), ("goal_checked", 3),
   ("weekly_review_completed", 25), ("category_analysis_viewed", 15)]

/-- `STREAK_MILESTONES` from `GamificationService`, in dict insertion order:
milestone day count, bonus points, reward message. -/
def STREAK_MILESTONES : List (Nat × Nat × String) :=
  [(3, 25, "🌟 ¡3 días seguidos!"),
   (7, 50, "🚀 ¡1 semana completa!"),
   (14, 100, "💫 ¡2 semanas!"),
   (30, 250, "🏆 ¡1 MES!"),
   (90, 500, "👑 ¡3 MESES!")]

/-- One entry of the `LEVELS` table. -/
structure LevelInfo where
  points : Nat
  name : String
  badge : String
  deriving DecidableEq, Repr

/-- `LEVELS` from `GamificationService`. -/
def LEVELS : List LevelInfo :=
  [⟨0, "Recién Llegado 💰", "💰"⟩,
   ⟨100, "Operador Junior 📈", "📈"⟩,
   ⟨300, "Analista Senior 💼", "💼"⟩,
   ⟨600, "Fund Manager 🏦", "🏦"⟩,
   ⟨1000, "Tiburón de Wall Street 🦈", "🦈"⟩,
   ⟨1500, "Magnate Financiero 💎", "💎"⟩,
   ⟨2100, "Visionario Global 🌐", "🌐"⟩,
   ⟨2800, "Leyenda Viva 🏆", "🏆"⟩,
   ⟨3600, "Oráculo Financiero 🔮", "🔮"⟩,
   ⟨4500, "Emperador del Capital 👑", "👑"⟩]

/-- `db.get_user_stats`: a `SELECT` that can raise. -/
def get_user_stats (f : Faults) (db : DB) : Except Unit (Option UserStats) :=
  if f.failGetStats then .error () else .ok db.stats

/-- `db.update_user_stats`: a SQL `UPDATE ... WHERE user_id = ?`; when no row
exists it updates nothing (and still reports success). -/
def update_user_stats (f : Faults) (db : DB) (s : UserStats) : Except Unit DB :=
  if f.failUpdateStats then .error ()
  else .ok { db with stats := db.stats.map fun _ => s }

/-- `db.record_daily_engagement`: upsert into the `daily_engagement` ledger. -/
def record_daily_engagement (f : Faults) (db : DB) : Except Unit DB :=
  if f.failRecordDaily then .error ()
  else .ok { db with ledger := db.ledger + 1 }

/-- `db.add_streak_milestone`: `INSERT OR REPLACE` of `(user, milestone_days)`. -/
def add_streak_milestone (f : Faults) (db : DB) (m : Nat) : Except Unit DB :=
  if f.failAddMilestone then .error ()
  else .ok { db with milestones := if m ∈ db.milestones then db.milestones else m :: db.milestones }

/-- The initial stats row inserted for the user (all zero, NULL date). -/
def initial_user_stats : UserStats := ⟨0, 0, 0, 0, .null⟩

/-- The store as the service first sees it: the initial stats row present,
empty ledger, no milestones. -/
def initDB : DB := ⟨some initial_user_stats, 0, []⟩

/-- `_is_valid_action`. -/
def is_valid_action (a : String) : Bool :=
  (POINTS_CONFIG.lookup a).isSome || a.startsWith "custom_"

/-- `_parse_date` applied at `today`: an unparseable (or missing) string falls
back to `date.today()`. -/
def parse_date (today : Int) : DateField → Int
  | .null => today
  | .unparseable => today
  | .valid d => d

/-- The dict returned by the streak-transition helpers. -/
structure StreakResult where
  streak_updated : Bool
  current_streak : Nat
  message : String
  deriving DecidableEq, Repr

/-- `_start_new_streak`. -/
def start_new_streak (f : Faults) (today : Int) (db : DB) : StreakResult × DB :=
  match update_user_stats f db ⟨1, 1, 10, 1, .valid today⟩ with
  | .ok db' => (⟨true, 1, "🎉 ¡Comienza tu racha financiera!"⟩, db')
  | .error _ => (⟨false, 0, "Error iniciando racha"⟩, db)

/-- `_increment_streak`. -/
def increment_streak (f : Faults) (s : UserStats) (today : Int) (db : DB) : StreakResult × DB :=
  let new_streak := s.current_streak + 1
  let longest := max s.longest_streak new_streak
  let streak_bonus := 10 + (min new_streak 7) * 2
  match update_user_stats f db
      ⟨new_streak, longest, s.total_points + streak_bonus, s.total_streak_days + 1, .valid today⟩ with
  | .ok db' =>
      (⟨true, new_streak,
        "🔥 ¡Racha de " ++ toString new_streak ++ " días! +" ++ toString streak_bonus ++ " puntos"⟩, db')
  | .error _ => (⟨false, s.current_streak, "Error actualizando racha"⟩, db)

/-- `_maintain_streak`. -/
def maintain_streak (s : UserStats) : StreakResult :=
  ⟨false, s.current_streak, "Racha mantenida - ya activo hoy"⟩

/-- `_handle_streak_break`. -/
def handle_streak_break (f : Faults) (s : UserStats) (today : Int) (days_since : Int) (db : DB) :
    StreakResult × DB :=
  match update_user_stats f db ⟨0, s.longest_streak, s.total_points, s.total_streak_days, .valid today⟩ with
  | .ok db' =>
      (⟨true, 0, "💔 Racha rota después de " ++ toString days_since ++ " días de inactividad"⟩, db')
  | .error _ => (⟨false, 0, "Error actualizando racha"⟩, db)

/-- `_process_streak_update`: an exception from the stats read propagates to
the orchestrator boundary; the transition helpers catch their own. -/
def process_streak_update (f : Faults) (today : Int) (db : DB) : Except Unit (StreakResult × DB) :=
  match get_user_stats f db with
  | .error e => .error e
  | .ok none => .ok (start_new_streak f today db)
  | .ok (some s) =>
    if s.last_activity_date = .null then .ok (start_new_streak f today db)
    else
      let last := parse_date today s.last_activity_date
      let days_since : Int := today - last
      if days_since = 0 then .ok (maintain_streak s, db)
      else if days_since = 1 then .ok (increment_streak f s today db)
      else .ok (handle_streak_break f s today days_since db)

/-- The `metadata` dict: flag-valued entries. -/
abbrev Metadata := List (String × Bool)

/-- `metadata.get(key, False)`. -/
def meta_flag (md : Metadata) (k : String) : Bool := (md.lookup k).getD false

/-- `_calculate_bonuses`: all three bonuses sit inside `if metadata:`, so an
absent or empty metadata dict yields 0 even on a weekend. -/
def calculate_bonuses (is_weekend : Bool) (md : Option Metadata) : Nat :=
  match md with
  | none => 0
  | some m =>
    if m = [] then 0
    else
      (if meta_flag m "first_time" then 10 else 0)
        + (if meta_flag m "consistent_week" then 20 else 0)
        + (if is_weekend then 5 else 0)

/-- The dict returned by `_calculate_points`. -/
structure PointsResult where
  base_points : Nat
  bonuses : Nat
  total_points : Nat
  deriving DecidableEq, Repr

/-- `_add_points`: read-modify-write of `total_points`; every exception is
caught, leaving the store unchanged. -/
def add_points (f : Faults) (points : Nat) (db : DB) : DB :=
  match get_user_stats f db with
  | .error _ => db
  | .ok none => db
  | .ok (some s) =>
    match update_user_stats f db { s with total_points := s.total_points + points } with
    | .ok db' => db'
    | .error _ => db

/-- `_calculate_points`: table lookup with default 5, plus bonuses, then the
side effect of `_add_points`. -/
def calculate_points (f : Faults) (is_weekend : Bool) (a : String) (md : Option Metadata) (db : DB) :
    PointsResult × DB :=
  let base := (POINTS_CONFIG.lookup a).getD 5
  let bonuses := calculate_bonuses is_weekend md
  let total := base + bonuses
  (⟨base, bonuses, total⟩, add_points f total db)

/-- The dict returned by `_check_milestones`. -/
structure MilestoneResult where
  achieved : Bool
  milestone_days : Option Nat
  message : String
  points_earned : Nat
  deriving DecidableEq, Repr

/-- `_check_milestones`: fires on the first exact match of the streak against
the milestone table (independently of already-recorded milestones), awards the
bonus through `_add_points`, and records the milestone (its own write failure
only logged). -/
def check_milestones (f : Faults) (current_streak : Nat) (db : DB) : MilestoneResult × DB :=
  match STREAK_MILESTONES.find? (fun e => e.1 == current_streak) with
  | none => (⟨false, none, "", 0⟩, db)
  | some (d, p, msg) =>
    let db1 := add_points f p db
    let db2 := match add_streak_milestone f db1 d with
      | .ok x => x
      | .error _ => db1
    (⟨true, some d, msg, p⟩, db2)

/-- `_calculate_level`'s loop: walk the table, remembering the index of the
last threshold satisfied, stopping at the first one that is not. -/
def calc_level_aux : List LevelInfo → Nat → Nat → Nat → Nat
  | [], _, _, lvl => lvl
  | li :: rest, points, i, lvl =>
    if li.points ≤ points then calc_level_aux rest points (i + 1) i else lvl

/-- `_calculate_level`. -/
def calculate_level (points : Nat) : Nat := calc_level_aux LEVELS points 0 0

/-- `_get_previous_level`: `_calculate_level(max(0, current_points - 10))`. -/
def get_previous_level (current_points : Nat) : Nat := calculate_level (current_points - 10)

/-- `_get_current_points`: reads the total, returning 0 on any failure. -/
def get_current_points (f : Faults) (db : DB) : Nat :=
  match get_user_stats f db with
  | .error _ => 0
  | .ok none => 0
  | .ok (some s) => s.total_points

/-- `_get_level_info`. -/
def get_level_info (level : Nat) : LevelInfo :=
  if level < LEVELS.length then LEVELS.getD level ⟨0, "", ""⟩ else LEVELS.getD 0 ⟨0, "", ""⟩

/-- The dict returned by `_check_level_progression`. -/
structure LevelResult where
  level_up : Bool
  current_level : Nat
  previous_level : Nat
  level_info : LevelInfo
  deriving DecidableEq, Repr

/-- `_check_level_progression`. -/
def check_level_progression (f : Faults) (db : DB) : LevelResult :=
  let current_points := get_current_points f db
  let current_level := calculate_level current_points
  let previous_level := get_previous_level current_points
  ⟨decide (previous_level < current_level), current_level, previous_level, get_level_info current_level⟩

/-- The consolidated success payload of `record_engagement`. -/
structure EngagementData where
  action : String
  streak_updated : Bool
  current_streak : Nat
  streak_message : String
  points_earned : Nat
  base_points : Nat
  bonuses : Nat
  total_points : Nat
  milestone : MilestoneResult
  level : LevelResult
  deriving DecidableEq, Repr

/-- `record_engagement`'s return value: the consolidated dict or the
`_error_response` dict. -/
inductive EngagementResult
  | success (data : EngagementData)
  | failure (error : String)
  deriving DecidableEq, Repr

/-- `record_engagement`: validation, the daily-engagement ledger write, the
streak transition, points, milestones, level check, consolidation; exceptions
reaching the boundary become an error result, with all store writes already
performed left in place. -/
def record_engagement (f : Faults) (today : Int) (is_weekend : Bool) (a : String)
    (md : Option Metadata) (db : DB) : EngagementResult × DB :=
  if is_valid_action a then
    match record_daily_engagement f db with
    | .error _ => (.failure "Error procesando engagement", db)
    | .ok db1 =>
      match process_streak_update f today db1 with
      | .error _ => (.failure "Error procesando engagement", db1)
      | .ok (sr, db2) =>
        let prdb := calculate_points f is_weekend a md db2
        let mrdb := check_milestones f sr.current_streak prdb.2
        let lr := check_level_progression f mrdb.2
        (.success ⟨a, sr.streak_updated, sr.current_streak, sr.message, prdb.1.total_points,
            prdb.1.base_points, prdb.1.bonuses, get_current_points f mrdb.2, mrdb.1, lr⟩, mrdb.2)
  else (.failure ("Acción no válida: " ++ a), db)

/-- The threshold of tier `i` of the `LEVELS` table. -/
def threshold (i : Nat) : Nat := (LEVELS.getD i ⟨0, "", ""⟩).points

/-- Python `round(q, 1)` on the progress value, over `ℚ`. -/
def round1 (q : ℚ) : ℚ := (round (q * 10) : ℤ) / 10

/-- The raw (pre-round, pre-clamp) progress ratio of `get_user_progress`:
points into the current level over points needed for the next, times 100, with
the max-tier case reporting 100. -/
def progress_raw (current_points : Nat) : ℚ :=
  let current_level := calculate_level current_points
  let next_level_points :=
    if current_level < LEVELS.length - 1 then threshold (current_level + 1) else threshold current_level
  let current_level_points := threshold current_level
  let points_in_current_level : ℚ := (current_points : ℚ) - (current_level_points : ℚ)
  let points_needed : ℚ := (next_level_points : ℚ) - (current_level_points : ℚ)
  if 0 < points_needed then points_in_current_level / points_needed * 100 else 100

/-- `progress_percentage` as `get_user_progress` reports it: the raw ratio
clamped to `[0, 100]` by `max(0, min(100, _))`, then rounded to one decimal. -/
def progress_percentage (current_points : Nat) : ℚ :=
  round1 (max 0 (min 100 (progress_raw current_points)))

/-- `total_points` as stored (0 when the row is missing). -/
def pointsOf (db : DB) : Nat :=
  match db.stats with
  | some s => s.total_points
  | none => 0

/-- `total_streak_days` as stored (0 when the row is missing). -/
def streakDaysOf (db : DB) : Nat :=
  match db.stats with
  | some s => s.total_streak_days
  | none => 0

/-- `current_streak` as stored (0 when the row is missing). -/
def currentStreakOf (db : DB) : Nat :=
  match db.stats with
  | some s => s.current_streak
  | none => 0

/-- Store states reachable from the initial one by `record_engagement` calls,
with any per-call fault profile, date, weekend flag, action and metadata. -/
inductive Reachable : DB → Prop
  | init : Reachable initDB
  | step (f : Faults) (today : Int) (w : Bool) (a : String) (md : Option Metadata) (db : DB) :
      Reachable db → Reachable (record_engagement f today w a md db).2

/-- Bonus rule in the spec's words (claim C8): the three bonuses are additive
and mutually independent, so the weekend bonus applies whenever the date is a
weekend, regardless of the metadata map. Used only to exhibit the divergence
from `calculate_bonuses`. -/
def claim_bonuses (is_weekend first_time consistent_week : Bool) : Nat :=
  (if first_time then 10 else 0) + (if consistent_week then 20 else 0) + (if is_weekend then 5 else 0)

/-- The milestone table entry matching a streak value, if any. -/
def milestone_lookup (k : Nat) : Option (Nat × String) :=
  (STREAK_MILESTONES.find? (fun e => e.1 == k)).map (fun e => e.2)

/-- The two store states differ at most by added points: the stats row is
unchanged, or only its `total_points` grew. This is the net effect of the
points-accumulation path (`_add_points`, also as used by the milestone
checker) on the stats row. -/
def StatsAdded (db db' : DB) : Prop :=
  db'.stats = db.stats ∨
  ∃ s p, db.stats = some s ∧ db'.stats = some { s with total_points := s.total_points + p }

/-- Invariant carried through every `record_engagement` call: the stored streak
never exceeds the stored longest streak, and a NULL `last_activity_date` can
only occur in the untouched initial row. -/
def Good (db : DB) : Prop :=
  ∀ s, db.stats = some s →
    s.current_streak ≤ s.longest_streak ∧
    (s.last_activity_date = DateField.null → s = initial_user_stats)

/-- Reduction of `_process_streak_update` when the stats read succeeds and a
row is present: the transition is selected by the day difference. -/
lemma process_streak_update_some (f : Faults) (today : Int) (db : DB) (s : UserStats)
    (h : db.stats = some s) (hf : f.failGetStats = false) :
    process_streak_update f today db =
      if s.last_activity_date = DateField.null then .ok (start_new_streak f today db)
      else if today - parse_date today s.last_activity_date = 0 then .ok (maintain_streak s, db)
      else if today - parse_date today s.last_activity_date = 1 then .ok (increment_streak f s today db)
      else .ok (handle_streak_break f s today (today - parse_date today s.last_activity_date) db) := by
  simp [process_streak_update, get_user_stats, hf, h]

lemma statsAdded_refl (db : DB) : StatsAdded db db := .inl rfl

lemma statsAdded_stats_eq {db db' : DB} (h : db'.stats = db.stats) : StatsAdded db db' := .inl h

lemma statsAdded_trans {a b c : DB} (h1 : StatsAdded a b) (h2 : StatsAdded b c) : StatsAdded a c := by
  rcases h1 with h1 | ⟨s, p, hs, hb⟩
  · rcases h2 with h2 | ⟨t, q, ht, hc⟩
    · exact .inl (h2.trans h1)
    · exact .inr ⟨t, q, h1 ▸ ht, hc⟩
  · rcases h2 with h2 | ⟨t, q, ht, hc⟩
    · exact .inr ⟨s, p, hs, h2.trans hb⟩
    · rw [hb] at ht
      injection ht with ht'
      refine .inr ⟨s, p + q, hs, ?_⟩
      rw [hc, ← ht']
      obtain ⟨scs, sls, stp, stsd, slad⟩ := s
      simp [add_assoc]

/-- A `StatsAdded` step preserves every stats field except `total_points`,
which can only grow. -/
lemma statsAdded_fields {db db' : DB} (h : StatsAdded db db') :
    ∀ s', db'.stats = some s' → ∃ s, db.stats = some s ∧
      s'.current_streak = s.current_streak ∧ s'.longest_streak = s.longest_streak ∧
      s'.total_streak_days = s.total_streak_days ∧ s'.last_activity_date = s.last_activity_date ∧
      s.total_points ≤ s'.total_points := by
  intro s' hs'
  rcases h with h | ⟨s, p, hs, hb⟩
  · exact ⟨s', h ▸ hs', rfl, rfl, rfl, rfl, le_refl _⟩
  · rw [hb] at hs'
    injection hs' with hs''
    exact ⟨s, hs, by rw [← hs''], by rw [← hs''], by rw [← hs''], by rw [← hs''],
      by rw [← hs'']; simp⟩

lemma statsAdded_pointsOf {db db' : DB} (h : StatsAdded db db') : pointsOf db ≤ pointsOf db' := by
  rcases h with h | ⟨s, p, hs, hb⟩
  · unfold pointsOf
    rw [h]
  · unfold pointsOf
    rw [hs, hb]
    simp

lemma statsAdded_daysOf {db db' : DB} (h : StatsAdded db db') :
    streakDaysOf db' = streakDaysOf db := by
  rcases h with h | ⟨s, p, hs, hb⟩
  · unfold streakDaysOf
    rw [h]
  · unfold streakDaysOf
    rw [hs, hb]

lemma statsAdded_good {db db' : DB} (h : StatsAdded db db') (hG : Good db)
    (hn : ∀ s, db.stats = some s → s.last_activity_date ≠ DateField.null) : Good db' := by
  intro s' hs'
  obtain ⟨s, hs, hcs, hls, _, hlad, _⟩ := statsAdded_fields h s' hs'
  refine ⟨hcs ▸ hls ▸ (hG s hs).1, fun hnull => absurd (hlad ▸ hnull) (hn s hs)⟩

lemma good_stats_eq {db db' : DB} (h : db'.stats = db.stats) (hG : Good db) : Good db' := by
  intro s hs
  exact hG s (h ▸ hs)

lemma pointsOf_stats_eq {db db' : DB} (h : db'.stats = db.stats) : pointsOf db' = pointsOf db := by
  unfold pointsOf
  rw [h]

lemma daysOf_stats_eq {db db' : DB} (h : db'.stats = db.stats) :
    streakDaysOf db' = streakDaysOf db := by
  unfold streakDaysOf
  rw [h]

/-- `_add_points` either leaves the store unchanged (missing row or caught
store failure) or adds exactly `p` to `total_points`. -/
lemma add_points_eq (f : Faults) (p : Nat) (db : DB) :
    add_points f p db = db ∨
    ∃ s, db.stats = some s ∧
      add_points f p db = { db with stats := some { s with total_points := s.total_points + p } } := by
  unfold add_points get_user_stats update_user_stats
  by_cases hg : f.failGetStats
  · simp [hg]
  · cases hs : db.stats with
    | none => simp [hg, hs]
    | some s =>
      by_cases hu : f.failUpdateStats
      · simp [hg, hs, hu]
      · right
        exact ⟨s, rfl, by simp [hg, hs, hu]⟩

lemma add_points_statsAdded (f : Faults) (p : Nat) (db : DB) :
    StatsAdded db (add_points f p db) := by
  rcases add_points_eq f p db with h | ⟨s, hs, h⟩
  · rw [h]; exact statsAdded_refl db
  · rw [h]; exact .inr ⟨s, p, hs, rfl⟩

lemma add_points_fault (f : Faults) (p : Nat) (db : DB) (h : f.failUpdateStats = true) :
    add_points f p db = db := by
  unfold add_points get_user_stats update_user_stats
  by_cases hg : f.failGetStats
  · simp [hg]
  · cases hs : db.stats with
    | none => simp [hg, hs]
    | some s => simp [hg, hs, h]

lemma check_milestones_statsAdded (f : Faults) (k : Nat) (db : DB) :
    StatsAdded db (check_milestones f k db).2 := by
  unfold check_milestones
  cases hf : STREAK_MILESTONES.find? (fun e => e.1 == k) with
  | none => exact statsAdded_refl db
  | some e =>
    obtain ⟨d, p, msg⟩ := e
    have h1 := add_points_statsAdded f p db
    by_cases hm : f.failAddMilestone
    · simp only [add_streak_milestone, hm, if_true]
      exact h1
    · simp only [add_streak_milestone, hm, if_false, Bool.false_eq_true]
      exact statsAdded_trans h1 (statsAdded_stats_eq rfl)

lemma check_milestones_stats_fault (f : Faults) (k : Nat) (db : DB)
    (h : f.failUpdateStats = true) : (check_milestones f k db).2.stats = db.stats := by
  unfold check_milestones
  cases hf : STREAK_MILESTONES.find? (fun e => e.1 == k) with
  | none => rfl
  | some e =>
    obtain ⟨d, p, msg⟩ := e
    by_cases hm : f.failAddMilestone
    · simp only [add_streak_milestone, hm, if_true]
      rw [add_points_fault f p db h]
    · simp only [add_streak_milestone, hm, if_false, Bool.false_eq_true]
      rw [add_points_fault f p db h]

lemma record_engagement_invalid (f : Faults) (today : Int) (w : Bool) (a : String)
    (md : Option Metadata) (db : DB) (hv : is_valid_action a = false) :
    record_engagement f today w a md db = (.failure ("Acción no válida: " ++ a), db) := by
  unfold record_engagement
  rw [hv]
  simp

lemma record_engagement_daily_err (f : Faults) (today : Int) (w : Bool) (a : String)
    (md : Option Metadata) (db : DB) (hv : is_valid_action a = true) (hrd : f.failRecordDaily = true) :
    record_engagement f today w a md db = (.failure "Error procesando engagement", db) := by
  unfold record_engagement record_daily_engagement
  rw [hv, hrd]
  simp

lemma record_engagement_streak_err (f : Faults) (today : Int) (w : Bool) (a : String)
    (md : Option Metadata) (db : DB) (hv : is_valid_action a = true)
    (hrd : f.failRecordDaily = false)
    (hps : process_streak_update f today { db with ledger := db.ledger + 1 } = .error ()) :
    record_engagement f today w a md db =
      (.failure "Error procesando engagement", { db with ledger := db.ledger + 1 }) := by
  unfold record_engagement record_daily_engagement
  rw [hv, hrd]
  simp only [if_true, Bool.false_eq_true, if_false]
  rw [hps]

/-- Reduction of `record_engagement` on the success path, in terms of the
streak result and the store state after the streak step. -/
lemma record_engagement_ok (f : Faults) (today : Int) (w : Bool) (a : String)
    (md : Option Metadata) (db : DB) (sr : StreakResult) (db2 : DB)
    (hv : is_valid_action a = true) (hrd : f.failRecordDaily = false)
    (hps : process_streak_update f today { db with ledger := db.ledger + 1 } = .ok (sr, db2)) :
    record_engagement f today w a md db =
      (.success ⟨a, sr.streak_updated, sr.current_streak, sr.message,
         (calculate_points f w a md db2).1.total_points,
         (calculate_points f w a md db2).1.base_points,
         (calculate_points f w a md db2).1.bonuses,
         get_current_points f (check_milestones f sr.current_streak (calculate_points f w a md db2).2).2,
         (check_milestones f sr.current_streak (calculate_points f w a md db2).2).1,
         check_level_progression f (check_milestones f sr.current_streak (calculate_points f w a md db2).2).2⟩,
       (check_milestones f sr.current_streak (calculate_points f w a md db2).2).2) := by
  unfold record_engagement record_daily_engagement
  rw [hv, hrd]
  simp only [if_true, Bool.false_eq_true, if_false]
  rw [hps]

/-- Effect of a successful `_process_streak_update` on the store: the invariant
is preserved, points and streak days never shrink, and afterwards either no
stored row has a NULL date, or the store is untouched because the stats write
faulted. -/
lemma process_streak_shape (f : Faults) (today : Int) (db : DB) (sr : StreakResult) (db2 : DB)
    (hG : Good db) (h : process_streak_update f today db = .ok (sr, db2)) :
    Good db2 ∧ pointsOf db ≤ pointsOf db2 ∧ streakDaysOf db ≤ streakDaysOf db2 ∧
    ((∀ s, db2.stats = some s → s.last_activity_date ≠ DateField.null) ∨
     (db2 = db ∧ f.failUpdateStats = true)) := by
  cases hg : f.failGetStats with
  | true =>
    unfold process_streak_update get_user_stats at h
    rw [hg] at h
    simp at h
  | false =>
  cases hs : db.stats with
  | none =>
    unfold process_streak_update get_user_stats at h
    rw [hg, hs] at h
    simp only [Bool.false_eq_true, if_false, Except.ok.injEq] at h
    unfold start_new_streak update_user_stats at h
    cases hu : f.failUpdateStats with
    | true =>
      rw [hu] at h
      simp only [if_true] at h
      obtain ⟨hsr, hdb2⟩ := Prod.mk.injEq .. ▸ h
      subst hdb2
      exact ⟨hG, le_refl _, le_refl _, .inr ⟨rfl, rfl⟩⟩
    | false =>
      rw [hu, hs] at h
      simp only [Bool.false_eq_true, if_false, Option.map_none'] at h
      obtain ⟨hsr, hdb2⟩ := Prod.mk.injEq .. ▸ h
      subst hdb2
      refine ⟨fun s' hs' => by simp at hs', ?_, ?_, .inl (fun s' hs' => by simp at hs')⟩
      · unfold pointsOf
        rw [hs]
      · unfold streakDaysOf
        rw [hs]
  | some s =>
    have hred := process_streak_update_some f today db s hs hg
    rw [hred] at h
    obtain ⟨hcl, hinit⟩ := hG s hs
    by_cases hnul : s.last_activity_date = DateField.null
    · rw [if_pos hnul] at h
      simp only [Except.ok.injEq] at h
      unfold start_new_streak update_user_stats at h
      cases hu : f.failUpdateStats with
      | true =>
        rw [hu] at h
        simp only [if_true] at h
        obtain ⟨hsr, hdb2⟩ := Prod.mk.injEq .. ▸ h
        subst hdb2
        exact ⟨hG, le_refl _, le_refl _, .inr ⟨rfl, rfl⟩⟩
      | false =>
        rw [hu, hs] at h
        simp only [Bool.false_eq_true, if_false, Option.map_some'] at h
        obtain ⟨hsr, hdb2⟩ := Prod.mk.injEq .. ▸ h
        subst hdb2
        have hsinit := hinit hnul
        refine ⟨?_, ?_, ?_, .inl ?_⟩
        · intro s' hs'
          simp only at hs'
          injection hs' with hs''
          subst hs''
          exact ⟨le_refl 1, by intro hcon; cases hcon⟩
        · unfold pointsOf
          rw [hs, hsinit]
          simp [initial_user_stats]
        · unfold streakDaysOf
          rw [hs, hsinit]
          simp [initial_user_stats]
        · intro s' hs'
          simp only at hs'
          injection hs' with hs''
          subst hs''
          intro hcon
          cases hcon
    · rw [if_neg hnul] at h
      by_cases h0 : today - parse_date today s.last_activity_date = 0
      · rw [if_pos h0] at h
        simp only [Except.ok.injEq] at h
        obtain ⟨hsr, hdb2⟩ := Prod.mk.injEq .. ▸ h
        subst hdb2
        refine ⟨hG, le_refl _, le_refl _, .inl ?_⟩
        intro s' hs'
        rw [hs] at hs'
        injection hs' with hs''
        subst hs''
        exact hnul
      · rw [if_neg h0] at h
        by_cases h1 : today - parse_date today s.last_activity_date = 1
        · rw [if_pos h1] at h
          simp only [Except.ok.injEq] at h
          unfold increment_streak update_user_stats at h
          cases hu : f.failUpdateStats with
          | true =>
            rw [hu] at h
            simp only [if_true] at h
            obtain ⟨hsr, hdb2⟩ := Prod.mk.injEq .. ▸ h
            subst hdb2
            refine ⟨hG, le_refl _, le_refl _, .inl ?_⟩
            intro s' hs'
            rw [hs] at hs'
            injection hs' with hs''
            subst hs''
            exact hnul
          | false =>
            rw [hu, hs] at h
            simp only [Bool.false_eq_true, if_false, Option.map_some'] at h
            obtain ⟨hsr, hdb2⟩ := Prod.mk.injEq .. ▸ h
            subst hdb2
            refine ⟨?_, ?_, ?_, .inl ?_⟩
            · intro s' hs'
              simp only at hs'
              injection hs' with hs''
              subst hs''
              exact ⟨le_max_right _ _, by intro hcon; cases hcon⟩
            · unfold pointsOf
              rw [hs]
              simp
            · unfold streakDaysOf
              rw [hs]
              simp
            · intro s' hs'
              simp only at hs'
              injection hs' with hs''
              subst hs''
              intro hcon
              cases hcon
        · rw [if_neg h1] at h
          simp only [Except.ok.injEq] at h
          unfold handle_streak_break update_user_stats at h
          cases hu : f.failUpdateStats with
          | true =>
            rw [hu] at h
            simp only [if_true] at h
            obtain ⟨hsr, hdb2⟩ := Prod.mk.injEq .. ▸ h
            subst hdb2
            refine ⟨hG, le_refl _, le_refl _, .inl ?_⟩
            intro s' hs'
            rw [hs] at hs'
            injection hs' with hs''
            subst hs''
            exact hnul
          | false =>
            rw [hu, hs] at h
            simp only [Bool.false_eq_true, if_false, Option.map_some'] at h
            obtain ⟨hsr, hdb2⟩ := Prod.mk.injEq .. ▸ h
            subst hdb2
            refine ⟨?_, ?_, ?_, .inl ?_⟩
            · intro s' hs'
              simp only at hs'
              injection hs' with hs''
              subst hs''
              exact ⟨Nat.zero_le _, by intro hcon; cases hcon⟩
            · unfold pointsOf
              rw [hs]
            · unfold streakDaysOf
              rw [hs]
            · intro s' hs'
              simp only at hs'
              injection hs' with hs''
              subst hs''
              intro hcon
              cases hcon

/-- One `record_engagement` call, with any fault profile, preserves the
invariant and never decreases `total_points` or `total_streak_days`. -/
lemma record_step (f : Faults) (today : Int) (w : Bool) (a : String) (md : Option Metadata)
    (db : DB) (hG : Good db) :
    Good (record_engagement f today w a md db).2 ∧
    pointsOf db ≤ pointsOf (record_engagement f today w a md db).2 ∧
    streakDaysOf db ≤ streakDaysOf (record_engagement f today w a md db).2 := by
  cases hv : is_valid_action a with
  | false =>
    rw [record_engagement_invalid f today w a md db hv]
    exact ⟨hG, le_refl _, le_refl _⟩
  | true =>
  cases hrd : f.failRecordDaily with
  | true =>
    rw [record_engagement_daily_err f today w a md db hv hrd]
    exact ⟨hG, le_refl _, le_refl _⟩
  | false =>
  have hG1 : Good { db with ledger := db.ledger + 1 } := hG
  cases hps : process_streak_update f today { db with ledger := db.ledger + 1 } with
  | error e =>
    obtain ⟨⟩ := e
    rw [record_engagement_streak_err f today w a md db hv hrd hps]
    exact ⟨hG, le_refl _, le_refl _⟩
  | ok pr =>
    obtain ⟨sr, db2⟩ := pr
    rw [record_engagement_ok f today w a md db sr db2 hv hrd hps]
    obtain ⟨hG2, hp2, hd2, hdisj⟩ :=
      process_streak_shape f today { db with ledger := db.ledger + 1 } sr db2 hG1 hps
    have hsa : StatsAdded db2
        (check_milestones f sr.current_streak (calculate_points f w a md db2).2).2 := by
      have h1 : StatsAdded db2 (calculate_points f w a md db2).2 :=
        add_points_statsAdded f ((POINTS_CONFIG.lookup a).getD 5 + calculate_bonuses w md) db2
      exact statsAdded_trans h1 (check_milestones_statsAdded f sr.current_streak _)
    rcases hdisj with hn | ⟨hdb2, hu⟩
    · refine ⟨statsAdded_good hsa hG2 hn, ?_, ?_⟩
      · exact le_trans hp2 (statsAdded_pointsOf hsa)
      · exact le_trans hd2 (le_of_eq (statsAdded_daysOf hsa).symm)
    · have hY : (calculate_points f w a md db2).2 = db2 :=
        add_points_fault f ((POINTS_CONFIG.lookup a).getD 5 + calculate_bonuses w md) db2 hu
      have hst : (check_milestones f sr.current_streak (calculate_points f w a md db2).2).2.stats
          = db2.stats := by
        rw [hY]
        exact check_milestones_stats_fault f sr.current_streak db2 hu
      refine ⟨good_stats_eq hst hG2, ?_, ?_⟩
      · exact le_trans hp2 (le_of_eq (pointsOf_stats_eq hst).symm)
      · exact le_trans hd2 (le_of_eq (daysOf_stats_eq hst).symm)

/-- Every reachable store state satisfies the invariant. -/
lemma reachable_good (db : DB) (h : Reachable db) : Good db := by
  induction h with
  | init =>
    intro s hs
    injection hs with hs'
    subst hs'
    exact ⟨le_refl 0, fun _ => rfl⟩
  | step f today w a md db hdb ih =>
    exact (record_step f today w a md db ih).1

/-- Closed-form facts about `_calculate_level`: the resolved level's threshold
is met, and either it is the top tier or the next threshold is not met. -/
lemma calc_level_spec1 (p : Nat) :
    threshold (calculate_level p) ≤ p ∧
    (calculate_level p = LEVELS.length - 1 ∨ p < threshold (calculate_level p + 1)) := by
  simp only [calculate_level, LEVELS, calc_level_aux, threshold, List.length_cons, List.length_nil]
  split_ifs <;> simp_all [List.getD]

lemma calc_level_max_iff (p : Nat) : calculate_level p = LEVELS.length - 1 ↔ 4500 ≤ p := by
  simp only [calculate_level, LEVELS, calc_level_aux, List.length_cons, List.length_nil]
  split_ifs <;> simp_all <;> omega

lemma round1_bounds {q : ℚ} (h0 : 0 ≤ q) (h1 : q ≤ 100) : 0 ≤ round1 q ∧ round1 q ≤ 100 := by
  have l1 : (0 : ℤ) ≤ round (q * 10) := by
    have hm : round (0 : ℚ) ≤ round (q * 10) := by
      rw [round_eq, round_eq]
      exact Int.floor_le_floor (by linarith)
    simpa using hm
  have l2 : round (q * 10) ≤ 1000 := by
    have hm : round (q * 10) ≤ round ((1000 : ℕ) : ℚ) := by
      rw [round_eq, round_eq]
      exact Int.floor_le_floor (by push_cast; linarith)
    simpa [round_natCast] using hm
  unfold round1
  constructor
  · positivity
  · rw [div_le_iff₀ (by norm_num)]
    have hc : ((round (q * 10) : ℤ) : ℚ) ≤ ((1000 : ℤ) : ℚ) := Int.cast_le.mpr l2
    push_cast at hc ⊢
    linarith

lemma progress_max (p : Nat) (h : calculate_level p = LEVELS.length - 1) :
    progress_percentage p = 100 := by
  have h45 : 4500 ≤ p := (calc_level_max_iff p).1 h
  have hraw : progress_raw p = 100 := by
    unfold progress_raw
    rw [h]
    norm_num [threshold, LEVELS, List.getD]
  unfold progress_percentage
  rw [hraw]
  have hcl : (max 0 (min 100 (100 : ℚ))) = 100 := by norm_num
  rw [hcl]
  unfold round1
  rw [show ((100 : ℚ) * 10) = ((1000 : ℕ) : ℚ) by norm_num, round_natCast]
  norm_num

/-- A `record_engagement` call against a stored date equal to today takes the
Maintain branch: the reported streak is unchanged and the stored streak fields
are untouched (only points may grow). -/
lemma record_maintain (s : UserStats) (today : Int) (w : Bool) (a : String) (md : Option Metadata)
    (db : DB) (h1 : db.stats = some s) (h2 : s.last_activity_date = DateField.valid today)
    (h3 : is_valid_action a = true) :
    (∃ data, (record_engagement noFaults today w a md db).1 = .success data ∧
      data.streak_updated = false ∧ data.current_streak = s.current_streak) ∧
    (∃ s', (record_engagement noFaults today w a md db).2.stats = some s' ∧
      s'.current_streak = s.current_streak ∧ s'.longest_streak = s.longest_streak ∧
      s'.total_streak_days = s.total_streak_days ∧
      s'.last_activity_date = s.last_activity_date) := by
  have h1' : ({ db with ledger := db.ledger + 1 } : DB).stats = some s := h1
  have hps : process_streak_update noFaults today { db with ledger := db.ledger + 1 } =
      .ok (maintain_streak s, { db with ledger := db.ledger + 1 }) := by
    have hred := process_streak_update_some noFaults today { db with ledger := db.ledger + 1 } s h1' rfl
    rw [hred, h2]
    simp [parse_date]
  rw [record_engagement_ok noFaults today w a md db (maintain_streak s) _ h3 rfl hps]
  constructor
  · exact ⟨_, rfl, rfl, rfl⟩
  · have hsa : StatsAdded { db with ledger := db.ledger + 1 }
        (check_milestones noFaults (maintain_streak s).current_streak
          (calculate_points noFaults w a md { db with ledger := db.ledger + 1 }).2).2 := by
      have ha : StatsAdded { db with ledger := db.ledger + 1 }
          (calculate_points noFaults w a md { db with ledger := db.ledger + 1 }).2 :=
        add_points_statsAdded noFaults _ _
      exact statsAdded_trans ha (check_milestones_statsAdded noFaults _ _)
    rcases hsa with hsa | ⟨t, p, ht, hb⟩
    · exact ⟨s, by rw [hsa]; exact h1', rfl, rfl, rfl, rfl⟩
    · have htt : t = s := by
        rw [h1'] at ht
        injection ht with ht'
        exact ht'.symm
      subst htt
      exact ⟨{ t with total_points := t.total_points + p }, hb, rfl, rfl, rfl, rfl⟩

/-- Claim C1 (amended). The Streak Evaluator selects the transition by day
difference, but the Start transition does not merge with the stored state: it
overwrites the row with the fixed values `currentStreak = 1`,
`longestStreak = 1`, `totalPoints = 10`, `totalStreakDays = 1` (these agree
with the claim's `max`/increment phrasing only on the all-zero initial row).
Increment and Break behave exactly as the claim states: Increment bumps the
streak, takes `max` for the longest streak, adds one streak day and awards
`10 + min(newStreak, 7) * 2` points; Break zeroes the streak, leaves the
longest streak, points and streak days unchanged; both set
`lastActivityDate = today`. -/
theorem C1_streak_transitions (s : UserStats) (today : Int) (db : DB) (h : db.stats = some s) :
    (s.last_activity_date = DateField.null →
      process_streak_update noFaults today db =
        .ok (⟨true, 1, "🎉 ¡Comienza tu racha financiera!"⟩,
             { db with stats := some ⟨1, 1, 10, 1, .valid today⟩ })) ∧
    (∀ d, s.last_activity_date = DateField.valid d → today - d = 1 →
      process_streak_update noFaults today db =
        .ok (⟨true, s.current_streak + 1,
              "🔥 ¡Racha de " ++ toString (s.current_streak + 1) ++ " días! +"
                ++ toString (10 + min (s.current_streak + 1) 7 * 2) ++ " puntos"⟩,
             { db with stats := some ⟨s.current_streak + 1, max s.longest_streak (s.current_streak + 1),
                 s.total_points + (10 + min (s.current_streak + 1) 7 * 2),
                 s.total_streak_days + 1, .valid today⟩ })) ∧
    (∀ d, s.last_activity_date = DateField.valid d → 1 < today - d →
      process_streak_update noFaults today db =
        .ok (⟨true, 0, "💔 Racha rota después de " ++ toString (today - d) ++ " días de inactividad"⟩,
             { db with stats := some ⟨0, s.longest_streak, s.total_points,
                 s.total_streak_days, .valid today⟩ })) := by
  have hred := process_streak_update_some noFaults today db s h rfl
  refine ⟨fun hnull => ?_, fun d hd hdiff => ?_, fun d hd hdiff => ?_⟩
  · rw [hred, if_pos hnull]
    simp [start_new_streak, update_user_stats, noFaults, h]
  · rw [hred, hd]
    simp only [parse_date]
    rw [if_neg (by simp), if_neg (by omega), if_pos hdiff]
    simp [increment_streak, update_user_stats, noFaults, h]
  · rw [hred, hd]
    simp only [parse_date]
    rw [if_neg (by simp), if_neg (by omega), if_neg (by omega)]
    simp [handle_streak_break, update_user_stats, noFaults, h]

/-- Witness for `C1_streak_transitions`: the Increment branch at a concrete
state (streak 2, day difference 1). -/
theorem C1_witness :
    process_streak_update noFaults 1 ⟨some ⟨2, 2, 50, 4, .valid 0⟩, 0, []⟩ =
      .ok (⟨true, 2 + 1,
            "🔥 ¡Racha de " ++ toString (2 + 1) ++ " días! +" ++ toString (10 + min (2 + 1) 7 * 2) ++ " puntos"⟩,
           { (⟨some ⟨2, 2, 50, 4, .valid 0⟩, 0, []⟩ : DB) with
             stats := some ⟨2 + 1, max 2 (2 + 1), 50 + (10 + min (2 + 1) 7 * 2), 4 + 1, .valid 1⟩ }) :=
  (C1_streak_transitions ⟨2, 2, 50, 4, .valid 0⟩ 1 ⟨some ⟨2, 2, 50, 4, .valid 0⟩, 0, []⟩ rfl).2.1
    0 rfl (by decide)

/-- Counterexample to claim C1 as stated: on a stored row with
`longestStreak = 5`, `totalPoints = 100`, `totalStreakDays = 7` and a NULL
date, the Start transition writes `longestStreak = 1` (not `max(5, 1) = 5`),
`totalStreakDays = 1` (not `7 + 1`) and `totalPoints = 10` (not `100 + 10`). -/
theorem C1_counterexample :
    process_streak_update noFaults 0 ⟨some ⟨0, 5, 100, 7, .null⟩, 0, []⟩ =
      .ok (⟨true, 1, "🎉 ¡Comienza tu racha financiera!"⟩, ⟨some ⟨1, 1, 10, 1, .valid 0⟩, 0, []⟩) ∧
    (1 : Nat) ≠ max 5 1 ∧ (1 : Nat) ≠ 7 + 1 ∧ (10 : Nat) ≠ 100 + 10 := by
  refine ⟨rfl, by decide, by decide, by decide⟩

/-- Claim C2 (confirmed). Along any sequence of `record_engagement` calls from
the initial store state — any dates, actions, metadata, and even any store
fault profile per call — `totalPoints` and `totalStreakDays` never decrease
across a call. -/
theorem C2_points_monotone (db : DB) (h : Reachable db) (f : Faults) (today : Int) (w : Bool)
    (a : String) (md : Option Metadata) :
    pointsOf db ≤ pointsOf (record_engagement f today w a md db).2 ∧
    streakDaysOf db ≤ streakDaysOf (record_engagement f today w a md db).2 :=
  (record_step f today w a md db (reachable_good db h)).2

/-- Witness for `C2_points_monotone`: the first call on the initial state. -/
theorem C2_witness :
    pointsOf initDB ≤ pointsOf (record_engagement noFaults 0 false "transaction_added" none initDB).2 ∧
    streakDaysOf initDB ≤
      streakDaysOf (record_engagement noFaults 0 false "transaction_added" none initDB).2 :=
  C2_points_monotone initDB Reachable.init noFaults 0 false "transaction_added" none

/-- Claim C3 (confirmed). In every store state reachable by `record_engagement`
calls from the initial state, the stored `currentStreak` is at most the stored
`longestStreak`. -/
theorem C3_streak_le_longest (db : DB) (h : Reachable db) (s : UserStats)
    (hs : db.stats = some s) : s.current_streak ≤ s.longest_streak :=
  (reachable_good db h s hs).1

/-- Witness for `C3_streak_le_longest`: the initial state. -/
theorem C3_witness : initial_user_stats.current_streak ≤ initial_user_stats.longest_streak :=
  C3_streak_le_longest initDB Reachable.init initial_user_stats rfl

/-- Claim C4 (confirmed). When the stored `lastActivityDate` equals today,
`record_engagement` takes the Maintain branch: the result reports
`streak_updated = false` with the unchanged streak, the stored streak fields
(`currentStreak`, `longestStreak`, `totalStreakDays`, `lastActivityDate`) are
numerically unchanged, and calling the same engagement twice on the same
calendar day leaves the same stored `currentStreak` as calling it once. -/
theorem C4_same_day_idempotent (s : UserStats) (today : Int) (w : Bool) (a : String)
    (md : Option Metadata) (db : DB) (h1 : db.stats = some s)
    (h2 : s.last_activity_date = DateField.valid today) (h3 : is_valid_action a = true) :
    (∃ data, (record_engagement noFaults today w a md db).1 = .success data ∧
      data.streak_updated = false ∧ data.current_streak = s.current_streak) ∧
    (∃ s', (record_engagement noFaults today w a md db).2.stats = some s' ∧
      s'.current_streak = s.current_streak ∧ s'.longest_streak = s.longest_streak ∧
      s'.total_streak_days = s.total_streak_days ∧
      s'.last_activity_date = s.last_activity_date) ∧
    currentStreakOf (record_engagement noFaults today w a md
        (record_engagement noFaults today w a md db).2).2 =
      currentStreakOf (record_engagement noFaults today w a md db).2 := by
  obtain ⟨hpart1, hpart2⟩ := record_maintain s today w a md db h1 h2 h3
  refine ⟨hpart1, hpart2, ?_⟩
  obtain ⟨s', hs', hcs, hls, htsd, hlad⟩ := hpart2
  obtain ⟨_, hpart2'⟩ := record_maintain s' today w a md _ hs' (hlad.trans h2) h3
  obtain ⟨s'', hs'', hcs', _, _, _⟩ := hpart2'
  unfold currentStreakOf
  rw [hs'', hs']
  exact hcs'

/-- Witness for `C4_same_day_idempotent` at a concrete state already active
today. -/
theorem C4_witness :
    (∃ data, (record_engagement noFaults 5 false "goal_checked" none
        ⟨some ⟨3, 4, 60, 8, .valid 5⟩, 0, []⟩).1 = .success data ∧
      data.streak_updated = false ∧ data.current_streak = 3) ∧
    (∃ s', (record_engagement noFaults 5 false "goal_checked" none
        ⟨some ⟨3, 4, 60, 8, .valid 5⟩, 0, []⟩).2.stats = some s' ∧
      s'.current_streak = 3 ∧ s'.longest_streak = 4 ∧
      s'.total_streak_days = 8 ∧ s'.last_activity_date = .valid 5) ∧
    currentStreakOf (record_engagement noFaults 5 false "goal_checked" none
        (record_engagement noFaults 5 false "goal_checked" none
          ⟨some ⟨3, 4, 60, 8, .valid 5⟩, 0, []⟩).2).2 =
      currentStreakOf (record_engagement noFaults 5 false "goal_checked" none
        ⟨some ⟨3, 4, 60, 8, .valid 5⟩, 0, []⟩).2 :=
  C4_same_day_idempotent ⟨3, 4, 60, 8, .valid 5⟩ 5 false "goal_checked" none
    ⟨some ⟨3, 4, 60, 8, .valid 5⟩, 0, []⟩ rfl rfl rfl

/-- Claim C5 (confirmed). For every non-negative point total the resolved
level's threshold is met and either the level is the top tier or the next
threshold is not met; the lowest threshold is 0, so every total has a level;
the reported progress percentage lies in `[0, 100]` and equals 100 at the top
tier. -/
theorem C5_level_and_progress (p : Nat) :
    threshold (calculate_level p) ≤ p ∧
    (calculate_level p = LEVELS.length - 1 ∨ p < threshold (calculate_level p + 1)) ∧
    threshold 0 = 0 ∧
    0 ≤ progress_percentage p ∧ progress_percentage p ≤ 100 ∧
    (calculate_level p = LEVELS.length - 1 → progress_percentage p = 100) := by
  obtain ⟨h1, h2⟩ := calc_level_spec1 p
  have hb := round1_bounds (q := max 0 (min 100 (progress_raw p)))
    (le_max_left _ _) (max_le (by norm_num) (min_le_left _ _))
  exact ⟨h1, h2, rfl, hb.1, hb.2, progress_max p⟩

/-- Claim C6 (amended). The milestone checker fires iff the post-transition
streak exactly equals a configured milestone value (3, 7, 14, 30, 90) —
regardless of whether that milestone was already recorded for the user. When
it fires, it awards that milestone's fixed bonus through the
points-accumulation path, upserts the `(user, milestoneDays)` record and
returns the reward message; at most one milestone fires per call, and a streak
merely greater than a milestone value fires nothing. -/
theorem C6_milestones (k : Nat) (db : DB) (s : UserStats) (h : db.stats = some s) :
    ((check_milestones noFaults k db).1.achieved = true ↔ k = 3 ∨ k = 7 ∨ k = 14 ∨ k = 30 ∨ k = 90) ∧
    (∀ p msg, milestone_lookup k = some (p, msg) →
      check_milestones noFaults k db =
        (⟨true, some k, msg, p⟩,
         { db with stats := some { s with total_points := s.total_points + p },
                   milestones := if k ∈ db.milestones then db.milestones else k :: db.milestones })) ∧
    (milestone_lookup k = none → check_milestones noFaults k db = (⟨false, none, "", 0⟩, db)) := by
  have hach : (check_milestones noFaults k db).1.achieved =
      (STREAK_MILESTONES.find? (fun e => e.1 == k)).isSome := by
    unfold check_milestones
    cases hf : STREAK_MILESTONES.find? (fun e => e.1 == k) with
    | none => simp
    | some e => obtain ⟨d, p, msg⟩ := e; simp
  refine ⟨?_, fun p msg hl => ?_, fun hl => ?_⟩
  · rw [hach, List.find?_isSome]
    simp only [STREAK_MILESTONES]
    constructor
    · rintro ⟨x, hx, hpx⟩
      fin_cases hx <;> simp_all
    · rintro (rfl | rfl | rfl | rfl | rfl)
      · exact ⟨(3, 25, "🌟 ¡3 días seguidos!"), by simp⟩
      · exact ⟨(7, 50, "🚀 ¡1 semana completa!"), by simp⟩
      · exact ⟨(14, 100, "💫 ¡2 semanas!"), by simp⟩
      · exact ⟨(30, 250, "🏆 ¡1 MES!"), by simp⟩
      · exact ⟨(90, 500, "👑 ¡3 MESES!"), by simp⟩
  · have hfind : STREAK_MILESTONES.find? (fun e => e.1 == k) = some (k, p, msg) := by
      simp only [milestone_lookup] at hl
      cases hf : STREAK_MILESTONES.find? (fun e => e.1 == k) with
      | none => rw [hf] at hl; simp at hl
      | some e =>
        have he := List.find?_some hf
        rw [hf] at hl
        obtain ⟨e1, e2, e3⟩ := e
        simp at hl he
        simp_all
    unfold check_milestones
    rw [hfind]
    simp [add_points, get_user_stats, noFaults, h, update_user_stats, add_streak_milestone]
  · have hfind : STREAK_MILESTONES.find? (fun e => e.1 == k) = none := by
      simp only [milestone_lookup] at hl
      cases hf : STREAK_MILESTONES.find? (fun e => e.1 == k) with
      | none => rfl
      | some e => rw [hf] at hl; simp at hl
    unfold check_milestones
    rw [hfind]

/-- Witness for `C6_milestones`: streak value 7 against a concrete store. -/
theorem C6_witness :
    ((check_milestones noFaults 7 ⟨some ⟨7, 7, 200, 10, .valid 3⟩, 4, [3]⟩).1.achieved = true ↔
      (7 : Nat) = 3 ∨ (7 : Nat) = 7 ∨ (7 : Nat) = 14 ∨ (7 : Nat) = 30 ∨ (7 : Nat) = 90) ∧
    (∀ p msg, milestone_lookup 7 = some (p, msg) →
      check_milestones noFaults 7 ⟨some ⟨7, 7, 200, 10, .valid 3⟩, 4, [3]⟩ =
        (⟨true, some 7, msg, p⟩,
         { (⟨some ⟨7, 7, 200, 10, .valid 3⟩, 4, [3]⟩ : DB) with
           stats := some { (⟨7, 7, 200, 10, .valid 3⟩ : UserStats) with total_points := 200 + p },
           milestones := if 7 ∈ [3] then [3] else 7 :: [3] })) ∧
    (milestone_lookup 7 = none →
      check_milestones noFaults 7 ⟨some ⟨7, 7, 200, 10, .valid 3⟩, 4, [3]⟩ =
        (⟨false, none, "", 0⟩, ⟨some ⟨7, 7, 200, 10, .valid 3⟩, 4, [3]⟩)) :=
  C6_milestones 7 ⟨some ⟨7, 7, 200, 10, .valid 3⟩, 4, [3]⟩ ⟨7, 7, 200, 10, .valid 3⟩ rfl

/-- Counterexample to claim C6 as stated: milestone 3 is already recorded for
the user, yet the checker fires again on a streak of exactly 3, re-awarding
the 25-point bonus (the code never consults the recorded milestones). -/
theorem C6_counterexample :
    (3 : Nat) ∈ ([3] : List Nat) ∧
    (check_milestones noFaults 3 ⟨some ⟨3, 3, 100, 3, .valid 0⟩, 1, [3]⟩).1.achieved = true ∧
    (check_milestones noFaults 3 ⟨some ⟨3, 3, 100, 3, .valid 0⟩, 1, [3]⟩).1.points_earned = 25 ∧
    pointsOf (check_milestones noFaults 3 ⟨some ⟨3, 3, 100, 3, .valid 0⟩, 1, [3]⟩).2 = 125 := by
  refine ⟨by decide, rfl, rfl, rfl⟩

/-- Claim C7 (amended). On a stored `lastActivityDate` string that cannot be
parsed, `_parse_date` falls back to today, so the Streak Evaluator performs
the Maintain transition — it treats the user as already active today, leaving
the stored state untouched (not the Start transition as the spec claims). It
returns normally and never raises. -/
theorem C7_unparseable_maintains (s : UserStats) (today : Int) (db : DB)
    (h1 : db.stats = some s) (h2 : s.last_activity_date = DateField.unparseable) :
    process_streak_update noFaults today db =
      .ok (⟨false, s.current_streak, "Racha mantenida - ya activo hoy"⟩, db) := by
  simp [process_streak_update, get_user_stats, noFaults, h1, h2, parse_date, maintain_streak]

/-- Witness for `C7_unparseable_maintains` at a concrete corrupted state. -/
theorem C7_witness :
    process_streak_update noFaults 7 ⟨some ⟨2, 4, 30, 6, .unparseable⟩, 2, [3]⟩ =
      .ok (⟨false, 2, "Racha mantenida - ya activo hoy"⟩, ⟨some ⟨2, 4, 30, 6, .unparseable⟩, 2, [3]⟩) :=
  C7_unparseable_maintains ⟨2, 4, 30, 6, .unparseable⟩ 7 _ rfl rfl

/-- Counterexample to claim C7 as stated: with an unparseable stored date and
`currentStreak = 5`, the evaluator performs Maintain (streak stays 5, state
unchanged), not the Start transition (which would set the streak to 1). -/
theorem C7_counterexample :
    process_streak_update noFaults 100 ⟨some ⟨5, 6, 40, 9, .unparseable⟩, 0, []⟩ =
      .ok (⟨false, 5, "Racha mantenida - ya activo hoy"⟩, ⟨some ⟨5, 6, 40, 9, .unparseable⟩, 0, []⟩) ∧
    (5 : Nat) ≠ 1 := by
  exact ⟨rfl, by decide⟩

/-- Claim C8 (amended). Action points are the base looked up in the fixed
table (any action outside the table — including well-formed `custom_` tags —
gets the default 5) plus the metadata bonuses; within a non-empty metadata
map the first-time (+10), consistent-week (+20) and weekend (+5) bonuses are
additive and independent, but all three sit inside the `if metadata:` guard,
so an absent or empty metadata map yields no bonus at all — the weekend bonus
is not independent of the metadata map's presence. The computed total is added
to the stored points via the accumulation path. -/
theorem C8_points (w : Bool) (a : String) (md : Option Metadata) (db : DB) (s : UserStats)
    (h : db.stats = some s) :
    ((calculate_points noFaults w a md db).1 =
      ⟨(POINTS_CONFIG.lookup a).getD 5, calculate_bonuses w md,
       (POINTS_CONFIG.lookup a).getD 5 + calculate_bonuses w md⟩) ∧
    ((POINTS_CONFIG.lookup a) = none → (calculate_points noFaults w a md db).1.base_points = 5) ∧
    (calculate_bonuses w none = 0) ∧
    (∀ m : Metadata, m ≠ [] → calculate_bonuses w (some m) =
      claim_bonuses w (meta_flag m "first_time") (meta_flag m "consistent_week")) ∧
    ((calculate_points noFaults w a md db).2 =
      { db with stats := some { s with total_points :=
          s.total_points + ((POINTS_CONFIG.lookup a).getD 5 + calculate_bonuses w md) } }) := by
  refine ⟨rfl, fun hn => ?_, rfl, fun m hm => ?_, ?_⟩
  · simp [calculate_points, hn]
  · simp [calculate_bonuses, claim_bonuses, hm]
  · simp [calculate_points, add_points, get_user_stats, noFaults, h, update_user_stats]

/-- Witness for `C8_points`: a custom action with a first-time flag on a
weekend, against the initial store. -/
theorem C8_witness :
    ((calculate_points noFaults true "custom_foo" (some [("first_time", true)]) initDB).1 =
      ⟨(POINTS_CONFIG.lookup "custom_foo").getD 5, calculate_bonuses true (some [("first_time", true)]),
       (POINTS_CONFIG.lookup "custom_foo").getD 5 + calculate_bonuses true (some [("first_time", true)])⟩) ∧
    ((POINTS_CONFIG.lookup "custom_foo") = none →
      (calculate_points noFaults true "custom_foo" (some [("first_time", true)]) initDB).1.base_points = 5) ∧
    (calculate_bonuses true none = 0) ∧
    (∀ m : Metadata, m ≠ [] → calculate_bonuses true (some m) =
      claim_bonuses true (meta_flag m "first_time") (meta_flag m "consistent_week")) ∧
    ((calculate_points noFaults true "custom_foo" (some [("first_time", true)]) initDB).2 =
      { initDB with stats := some { initial_user_stats with total_points :=
          initial_user_stats.total_points + ((POINTS_CONFIG.lookup "custom_foo").getD 5
            + calculate_bonuses true (some [("first_time", true)])) } }) :=
  C8_points true "custom_foo" (some [("first_time", true)]) initDB initial_user_stats rfl

/-- Counterexample to claim C8 as stated: on a weekend with no metadata (or an
empty metadata map) the code awards no bonus, while the claim's independent
weekend bonus would award 5. -/
theorem C8_counterexample :
    calculate_bonuses true none = 0 ∧ calculate_bonuses true (some []) = 0 ∧
    claim_bonuses true false false = 5 ∧ (0 : Nat) ≠ 5 := by
  decide

/-- Claim C9 (amended). The level-up signal is derived, not stored, but it does
not compare against the level at `points - lastAwardAmount`: it compares the
level at the current total against the level at `max(0, total - 10)` — a fixed
ten-point lookback — so an award larger than 10 can cross a threshold without
the signal firing. -/
theorem C9_levelup (db : DB) (s : UserStats) (h : db.stats = some s) :
    (check_level_progression noFaults db).level_up =
      decide (calculate_level (s.total_points - 10) < calculate_level s.total_points) ∧
    (check_level_progression noFaults db).current_level = calculate_level s.total_points ∧
    (check_level_progression noFaults db).previous_level = calculate_level (s.total_points - 10) := by
  refine ⟨?_, ?_, ?_⟩ <;>
    simp [check_level_progression, get_current_points, get_user_stats, noFaults, h,
      get_previous_level]

/-- Witness for `C9_levelup` at a concrete store with 125 points. -/
theorem C9_witness :
    (check_level_progression noFaults ⟨some ⟨1, 5, 125, 9, .valid 50⟩, 0, []⟩).level_up =
      decide (calculate_level (125 - 10) < calculate_level 125) ∧
    (check_level_progression noFaults ⟨some ⟨1, 5, 125, 9, .valid 50⟩, 0, []⟩).current_level =
      calculate_level 125 ∧
    (check_level_progression noFaults ⟨some ⟨1, 5, 125, 9, .valid 50⟩, 0, []⟩).previous_level =
      calculate_level (125 - 10) :=
  C9_levelup ⟨some ⟨1, 5, 125, 9, .valid 50⟩, 0, []⟩ ⟨1, 5, 125, 9, .valid 50⟩ rfl

/-- Counterexample to claim C9 as stated: a same-day call awarding 35 points
(base 25 + first-time 10) takes the total from 90 to 125, crossing the
100-point threshold, yet no level-up is signaled, while the claim's comparison
`level(125) ≠ level(125 - 35)` says one must be. -/
theorem C9_counterexample :
    (∃ data, (record_engagement noFaults 50 false "weekly_review_completed"
        (some [("first_time", true)]) ⟨some ⟨1, 5, 90, 9, .valid 50⟩, 0, []⟩).1 = .success data ∧
      data.points_earned = 35 ∧ data.total_points = 125 ∧ data.level.level_up = false) ∧
    calculate_level 125 ≠ calculate_level (125 - 35) := by
  exact ⟨⟨_, rfl, rfl, rfl, rfl⟩, by decide⟩

/-- Claim C10 (amended). Failures that propagate to the orchestrator boundary
are caught and returned as a structured error result (never an unhandled
exception), but the per-call update is not all-or-nothing: when the stats read
fails after the step-2 ledger write, the call returns an error with the ledger
row already persisted; and a stats-write failure during the Increment step is
swallowed inside the streak helper, so the call returns a success result with
the stored stats unchanged instead of an error. -/
theorem C10_boundary (db : DB) (today : Int) (w : Bool) (a : String) (md : Option Metadata)
    (f : Faults) (hv : is_valid_action a = true) :
    (f.failGetStats = true → f.failRecordDaily = false →
      record_engagement f today w a md db =
        (.failure "Error procesando engagement", { db with ledger := db.ledger + 1 })) ∧
    (∀ s d, db.stats = some s → s.last_activity_date = DateField.valid d → today - d = 1 →
      f = ⟨false, false, true, false⟩ →
      (∃ data, (record_engagement f today w a md db).1 = .success data ∧
        data.streak_updated = false) ∧
      (record_engagement f today w a md db).2.stats = db.stats) := by
  constructor
  · intro hgf hrd
    have hps : process_streak_update f today { db with ledger := db.ledger + 1 } = .error () := by
      unfold process_streak_update get_user_stats
      rw [hgf]
      simp
    exact record_engagement_streak_err f today w a md db hv hrd hps
  · rintro s d h1 h2 hdiff rfl
    have h1' : ({ db with ledger := db.ledger + 1 } : DB).stats = some s := h1
    have hps : process_streak_update ⟨false, false, true, false⟩ today
        { db with ledger := db.ledger + 1 } =
        .ok (⟨false, s.current_streak, "Error actualizando racha"⟩,
             { db with ledger := db.ledger + 1 }) := by
      have hred := process_streak_update_some ⟨false, false, true, false⟩ today
        { db with ledger := db.ledger + 1 } s h1' rfl
      rw [hred, h2]
      simp only [parse_date]
      rw [if_neg (by simp), if_neg (by omega), if_pos hdiff]
      simp [increment_streak, update_user_stats]
    rw [record_engagement_ok ⟨false, false, true, false⟩ today w a md db _ _ hv rfl hps]
    refine ⟨⟨_, rfl, rfl⟩, ?_⟩
    have hY : (calculate_points ⟨false, false, true, false⟩ w a md
        { db with ledger := db.ledger + 1 }).2 = { db with ledger := db.ledger + 1 } :=
      add_points_fault ⟨false, false, true, false⟩
        ((POINTS_CONFIG.lookup a).getD 5 + calculate_bonuses w md)
        { db with ledger := db.ledger + 1 } rfl
    have hst := check_milestones_stats_fault ⟨false, false, true, false⟩
      (StreakResult.current_streak ⟨false, s.current_streak, "Error actualizando racha"⟩)
      { db with ledger := db.ledger + 1 } rfl
    rw [hY]
    exact hst

/-- Witness for `C10_boundary`: stats-read failure on the initial state. -/
theorem C10_witness :
    record_engagement ⟨false, true, false, false⟩ 0 false "transaction_added" none initDB =
      (.failure "Error procesando engagement", { initDB with ledger := initDB.ledger + 1 }) :=
  (C10_boundary initDB 0 false "transaction_added" none ⟨false, true, false, false⟩ rfl).1 rfl rfl

/-- Counterexample to claim C10 as stated: with a failing stats read, the call
returns a structured error but the persisted state is not unchanged — the
daily-engagement ledger row written in step 2 remains. -/
theorem C10_counterexample :
    (record_engagement ⟨false, true, false, false⟩ 1 false "transaction_added" none initDB).1 =
      .failure "Error procesando engagement" ∧
    (record_engagement ⟨false, true, false, false⟩ 1 false "transaction_added" none initDB).2 ≠
      initDB ∧
    (record_engagement ⟨false, true, false, false⟩ 1 false "transaction_added" none initDB).2.ledger =
      initDB.ledger + 1 := by
  refine ⟨rfl, by decide, rfl⟩

end Ahorify
